import Mathlib

/-!
Shallow embedding of `Malmo/src/MissionRecord.cpp` (the MissionRecord
recording-session finalizer).  Filesystem paths are modelled as component
lists, the on-disk state visible to `close` as a `World`, and each C++
member function as a pure Lean function on that state.  Exceptions are
modelled as an `Option String` component of the result (the thrown
message), caught exceptions as the log lines the code writes.
-/

set_option autoImplicit false

namespace Malmo

/-- A filesystem path: whether it has a root directory, and its components
in order.  `boost::filesystem::path` decomposes into exactly these pieces
for the operations `MissionRecord.cpp` uses. -/
structure FsPath where
  rooted : Bool
  comps : List String
deriving DecidableEq, Repr

/-- Render a path as a string with forward-slash separators (the POSIX
`path::string()`); on Windows separators would be backslashes, which the
code immediately rewrites to slashes, so slash rendering loses nothing. -/
def pathString (p : FsPath) : String :=
  (if p.rooted then "/" else "") ++ String.intercalate "/" p.comps

/-- Append one component: the path of a directory entry seen while
iterating over `base`. -/
def childPath (base : FsPath) (n : String) : FsPath :=
  ⟨base.rooted, base.comps ++ [n]⟩

/-- One step of the element walk of `boost::filesystem::path::normalize`:
a dot element is kept only in first or last position, a dot-dot cancels a
preceding plain name. -/
def normFold (last : Nat) (acc : List String) (ic : Nat × String) : List String :=
  if ic.2 = "." then
    (if ic.1 = 0 ∨ ic.1 = last then acc ++ ["."] else acc)
  else if ic.2 = ".." ∧ acc ≠ [] ∧ acc.getLast? ≠ some "." ∧ acc.getLast? ≠ some ".." then
    acc.dropLast
  else
    acc ++ [ic.2]

/-- The element algorithm of `boost::filesystem::path::normalize` on a
relative path (the only use in the code is after `relative_path()`). -/
def normalizeComps (cs : List String) : List String :=
  let r := cs.enum.foldl (normFold (cs.length - 1)) []
  if r = [] then ["."] else r

/-- `boost::filesystem::path::relative_path()`: drop the root, keep the
components. -/
def relative_path (p : FsPath) : FsPath :=
  ⟨false, p.comps⟩

/-- The archive entry name computed by `MissionRecord::addFile`:
`path.relative_path().normalize().string()`, backslashes replaced by
slashes, then `substr(2, ...)` — the first two characters dropped
(ASCII components, so characters coincide with bytes). -/
def entryName (p : FsPath) : String :=
  let s := pathString ⟨false, normalizeComps (relative_path p).comps⟩
  let s := String.mk (s.data.map (fun c => if c = '\\' then '/' else c))
  String.mk (s.data.drop 2)

/-- The entry name the specification describes: the file path relative to
`tempDirectory`, forward-slash separated (stated from the spec's words,
for comparison with `entryName`; assumes the file lies under the temp
root). -/
def specRelativeName (tempDir p : FsPath) : String :=
  String.intercalate "/" (p.comps.drop tempDir.comps.length)

/-- The entries of one directory, in iteration order, as the traversal in
`MissionRecord::addFiles` sees them (a forest: each constructor carries
the rest of the listing).  `gone` models an entry for which
`boost::filesystem::exists` returns false (vanished mid-traversal);
`readable` on a file models whether the tar library will manage to open
it later. -/
inductive FsEntries where
  | nil
  | file (name : String) (gone : Bool) (readable : Bool) (contents : String)
      (rest : FsEntries)
  | dir (name : String) (gone : Bool) (children : FsEntries) (rest : FsEntries)
deriving DecidableEq, Repr

/-- A collected file: its path together with what the (static) disk holds
at that path, which `addFile` will consult when archiving it. -/
structure CFile where
  path : FsPath
  readable : Bool
  contents : String
deriving DecidableEq, Repr

/-- The loop body of `MissionRecord::addFiles`: entries failing the
`exists` check are skipped, directories are recursed into, regular files
are appended, in iteration order.  (The recursive C++ call re-checks
`exists` on a child already seen to exist; in this static world that
check always passes.) -/
def addFilesAux : FsPath → FsEntries → List CFile
  | _, .nil => []
  | base, .file n g rb c rest =>
      (if g then [] else [⟨childPath base n, rb, c⟩]) ++ addFilesAux base rest
  | base, .dir n g cs rest =>
      (if g then [] else addFilesAux (childPath base n) cs) ++ addFilesAux base rest

/-- `MissionRecord::addFiles` at the root: throws
`Attempt to write to non-existent directory` when the directory does not
exist, otherwise collects recursively. -/
def addFiles (rootExists : Bool) (directory : FsPath) (entries : FsEntries) :
    Except String (List CFile) :=
  if rootExists then .ok (addFilesAux directory entries)
  else .error ("Attempt to write to non-existent directory: " ++ pathString directory)

/-- Modelled from the spec: `MissionRecordSpec` (its header is not part of
the visible slice) is data-only — the master recording switch, the temp
directory, the destination, and passive per-channel flags, paths and
video parameters consumed only by accessors. -/
structure MissionRecordSpec where
  is_recording : Bool
  is_recording_mp4 : Bool
  is_recording_observations : Bool
  is_recording_rewards : Bool
  is_recording_commands : Bool
  temp_dir : FsPath
  destination : FsPath
  mp4_path : String
  mp4_bit_rate : Int
  mp4_fps : Int
  observations_path : String
  rewards_path : String
  commands_path : String
  mission_init_path : String
deriving DecidableEq, Repr

/-- Modelled from the spec: a default-constructed `MissionRecordSpec` has
`is_recording = false` — the designated inert value used after ownership
transfer. -/
def defaultSpec : MissionRecordSpec :=
  ⟨false, false, false, false, false, ⟨false, []⟩, ⟨false, []⟩, "", 0, 0, "", "", "", ""⟩

/-- The `MissionRecord` object state: the `is_closed` latch and the owned
spec. -/
structure MissionRecord where
  is_closed : Bool
  spec : MissionRecordSpec
deriving DecidableEq, Repr

/-- An entry of the tar container: member name and file bytes. -/
structure TarEntry where
  name : String
  contents : String
deriving DecidableEq, Repr

/-- The state of the world `close` can observe and mutate: whether
`spec.temp_dir` exists and what it contains, whether the destination can
be opened for writing, the destination file contents (as the list of tar
entries the compressed stream decodes to; the gzip codec is a bijective
wrapper and not modelled further), and the diagnostic log (`std::cout`). -/
structure World where
  tempExists : Bool
  tempEntries : FsEntries
  destOpenable : Bool
  dest : Option (List TarEntry)
  log : List String
deriving DecidableEq, Repr

/-- Modelled from the spec: the tar library's `putFile` throws when the
file cannot be read; this is the exception message it carries. -/
def tarErr : String := "cannot open file"

/-- `MissionRecord::addFile`: read the file and append it to the tar under
`entryName`, or throw when the file is unreadable. -/
def addFile (tar : List TarEntry) (f : CFile) : Except String (List TarEntry) :=
  if f.readable then .ok (tar ++ [⟨entryName f.path, f.contents⟩])
  else .error tarErr

/-- The warning `close` logs when archiving one file fails. -/
def warnOf (f : CFile) : String :=
  "[warning] Unable to archive " ++ pathString f.path ++ ": " ++ tarErr

/-- The per-file loop in `MissionRecord::close`: each `addFile` failure is
caught and logged, the remaining files continue. -/
def archiveFiles (files : List CFile) (tar : List TarEntry) (lg : List String) :
    List TarEntry × List String :=
  match files with
  | [] => (tar, lg)
  | f :: rest =>
      match addFile tar f with
      | .ok t => archiveFiles rest t lg
      | .error _ => archiveFiles rest tar (lg ++ [warnOf f])

/-- The destination-write block of `MissionRecord::close`: opening the
`ofstream` either succeeds (the compressed archive is written) or fails
(a warning is logged and writing is skipped). -/
def writeDest (r : MissionRecord) (w : World) (entries : List TarEntry) : World :=
  if w.destOpenable then { w with dest := some entries }
  else { w with log := w.log ++
    ["[warning] Unable to write recording to output file " ++ pathString r.spec.destination] }

/-- The `fileList.size() > 0` block of `MissionRecord::close`: build the
tar (logging per-file failures), finish it, and write it out. -/
def archivePhase (r : MissionRecord) (w : World) (fileList : List CFile) : World :=
  if fileList.length > 0 then
    let p := archiveFiles fileList [] []
    writeDest r { w with log := w.log ++ p.2 } p.1
  else w

/-- The outcome of `MissionRecord::close`: the exception thrown (if any),
and the object and world state after the call. -/
structure CloseOutcome where
  exn : Option String
  record : MissionRecord
  world : World
deriving DecidableEq, Repr

/-- `MissionRecord::close`: return immediately unless recording and not
yet closed; enumerate files (propagating the missing-directory throw);
archive and write when the list is non-empty; remove the temp directory;
latch `is_closed`. -/
def close (r : MissionRecord) (w : World) : CloseOutcome :=
  if !r.spec.is_recording || r.is_closed then ⟨none, r, w⟩
  else
    match addFiles w.tempExists r.spec.temp_dir w.tempEntries with
    | .error e => ⟨some e, r, w⟩
    | .ok fileList =>
        let w1 := archivePhase r w fileList
        ⟨none, { r with is_closed := true },
          { w1 with tempExists := false, tempEntries := .nil }⟩

/-- The `MissionRecord` destructor: close if not yet closed, catching any
exception and reporting it on the log instead of propagating (the
function is total — nothing escapes). -/
def dtor (r : MissionRecord) (w : World) : World :=
  if !r.is_closed then
    let o := close r w
    match o.exn with
    | some e =>
        { o.world with log := o.world.log ++
          ["Exception in closing of MissionRecord: " ++ e] }
    | none => o.world
  else w

/-- The move constructor: the new object takes `is_closed` and `spec`, the
source keeps its `is_closed` but its spec is reset to the inert default.
Result: (constructed object, moved-from source). -/
def moveCtor (record : MissionRecord) : MissionRecord × MissionRecord :=
  (⟨record.is_closed, record.spec⟩, ⟨record.is_closed, defaultSpec⟩)

/-- Move assignment for distinct objects (`this != &record`): the target
takes `is_closed` and `spec` from the source, whose spec is reset to the
inert default.  Result: (assigned target, moved-from source). -/
def moveAssign (_dst source : MissionRecord) : MissionRecord × MissionRecord :=
  (⟨source.is_closed, source.spec⟩, ⟨source.is_closed, defaultSpec⟩)

/-- Move assignment when `this == &record`: the guard makes it a no-op. -/
def moveAssignSelf (r : MissionRecord) : MissionRecord := r

/-- `MissionRecord::MissionRecord(const MissionRecordSpec&)`: store the
spec, clear the latch, and `create_directories(temp_dir)` when recording
(creating it empty if absent, leaving it alone if present). -/
def mkMissionRecord (spec : MissionRecordSpec) (w : World) : MissionRecord × World :=
  (⟨false, spec⟩,
    if spec.is_recording then
      { w with tempExists := true,
               tempEntries := if w.tempExists then w.tempEntries else .nil }
    else w)

/-- `MissionRecord::isRecording`. -/
def isRecording (r : MissionRecord) : Bool := r.spec.is_recording

/-- `MissionRecord::isRecordingMP4`. -/
def isRecordingMP4 (r : MissionRecord) : Bool := r.spec.is_recording_mp4

/-- `MissionRecord::isRecordingObservations`. -/
def isRecordingObservations (r : MissionRecord) : Bool := r.spec.is_recording_observations

/-- `MissionRecord::isRecordingRewards`. -/
def isRecordingRewards (r : MissionRecord) : Bool := r.spec.is_recording_rewards

/-- `MissionRecord::isRecordingCommands`. -/
def isRecordingCommands (r : MissionRecord) : Bool := r.spec.is_recording_commands

/-- `MissionRecord::getMP4Path`. -/
def getMP4Path (r : MissionRecord) : String := r.spec.mp4_path

/-- `MissionRecord::getMP4BitRate`. -/
def getMP4BitRate (r : MissionRecord) : Int := r.spec.mp4_bit_rate

/-- `MissionRecord::getMP4FramesPerSecond`. -/
def getMP4FramesPerSecond (r : MissionRecord) : Int := r.spec.mp4_fps

/-- `MissionRecord::getObservationsPath`. -/
def getObservationsPath (r : MissionRecord) : String := r.spec.observations_path

/-- `MissionRecord::getRewardsPath`. -/
def getRewardsPath (r : MissionRecord) : String := r.spec.rewards_path

/-- `MissionRecord::getCommandsPath`. -/
def getCommandsPath (r : MissionRecord) : String := r.spec.commands_path

/-- `MissionRecord::getMissionInitPath`. -/
def getMissionInitPath (r : MissionRecord) : String := r.spec.mission_init_path

/-- The recursive pruning of entries whose `exists` check fails: what the
traversal would see if the vanished entries were not on disk at all. -/
def pruneEntries : FsEntries → FsEntries
  | .nil => .nil
  | .file n g rb c rest =>
      if g then pruneEntries rest else .file n g rb c (pruneEntries rest)
  | .dir n g cs rest =>
      if g then pruneEntries rest else .dir n g (pruneEntries cs) (pruneEntries rest)

/-- A concrete recording spec: temp directory `./t`, destination
`out.tgz`. -/
def specT : MissionRecordSpec :=
  { defaultSpec with
      is_recording := true
      temp_dir := ⟨false, [".", "t"]⟩
      destination := ⟨false, ["out.tgz"]⟩ }

/-- A concrete recording, not yet closed, over `specT`. -/
def recT : MissionRecord := ⟨false, specT⟩

/-- A concrete non-recording record. -/
def recInert : MissionRecord := ⟨false, defaultSpec⟩

/-- World: temp directory holds one readable file `a.txt`. -/
def wOneGood : World := ⟨true, .file "a.txt" false true "x" .nil, true, none, []⟩

/-- World: temp directory holds one unreadable file `a.txt`. -/
def wOneBad : World := ⟨true, .file "a.txt" false false "x" .nil, true, none, []⟩

/-- World: temp directory holds a readable `a.txt` and an unreadable
`b.txt`. -/
def wMixed : World :=
  ⟨true, .file "a.txt" false true "x" (.file "b.txt" false false "y" .nil), true, none, []⟩

/-- World: temp directory holds one readable file but the destination
cannot be opened for writing. -/
def wNoDest : World := ⟨true, .file "a.txt" false true "x" .nil, false, none, []⟩

/-- World: the temp directory does not exist. -/
def wMissing : World := ⟨false, .nil, true, none, []⟩

/-- Entries with one vanished file alongside a live one. -/
def esVanish : FsEntries :=
  .file "gone.txt" true true "g" (.file "a.txt" false true "x" .nil)

/-- The archiving loop keeps exactly the readable files, in order, under
their `entryName`, and logs one warning per unreadable file. -/
theorem archiveFiles_eq (files : List CFile) (tar : List TarEntry) (lg : List String) :
    archiveFiles files tar lg =
      (tar ++ (files.filter (fun f => f.readable)).map
          (fun f => ⟨entryName f.path, f.contents⟩),
       lg ++ (files.filter (fun f => !f.readable)).map warnOf) := by
  induction files generalizing tar lg with
  | nil => simp [archiveFiles]
  | cons f rest ih => cases hr : f.readable <;> simp [archiveFiles, addFile, hr, ih]

/-- When not recording, or already closed, `close` returns at once with
nothing changed. -/
theorem close_noop (r : MissionRecord) (w : World)
    (h : r.spec.is_recording = false ∨ r.is_closed = true) :
    close r w = ⟨none, r, w⟩ := by
  rcases h with h | h <;> simp [close, h]

/-- When recording and not closed but the temp directory is missing,
`close` throws the missing-directory error and changes nothing. -/
theorem close_missing (r : MissionRecord) (w : World)
    (hRec : r.spec.is_recording = true) (hNc : r.is_closed = false)
    (hEx : w.tempExists = false) :
    close r w =
      ⟨some ("Attempt to write to non-existent directory: " ++ pathString r.spec.temp_dir),
        r, w⟩ := by
  simp [close, addFiles, hRec, hNc, hEx]

/-- When recording, not closed, and the temp directory exists, `close`
runs the archive phase, removes the temp directory, and latches the
flag. -/
theorem close_run (r : MissionRecord) (w : World)
    (hRec : r.spec.is_recording = true) (hNc : r.is_closed = false)
    (hEx : w.tempExists = true) :
    close r w =
      ⟨none, { r with is_closed := true },
        { archivePhase r w (addFilesAux r.spec.temp_dir w.tempEntries) with
            tempExists := false, tempEntries := .nil }⟩ := by
  simp [close, addFiles, hRec, hNc, hEx]

/-- Running `close` a second time on the state the first run produced
changes neither the record nor the world. -/
theorem close_stable (r : MissionRecord) (w : World) :
    (close (close r w).record (close r w).world).record = (close r w).record ∧
    (close (close r w).record (close r w).world).world = (close r w).world := by
  by_cases hRec : r.spec.is_recording = true
  · by_cases hNc : r.is_closed = true
    · simp [close_noop r w (Or.inr hNc)]
    · have hNc' : r.is_closed = false := by simpa using hNc
      cases hEx : w.tempExists with
      | false => simp [close_missing r w hRec hNc' hEx]
      | true =>
          rw [close_run r w hRec hNc' hEx]
          constructor <;> rw [close_noop _ _ (Or.inr rfl)]
  · have hRec' : r.spec.is_recording = false := by simpa using hRec
    simp [close_noop r w (Or.inl hRec')]

/-- The destructor of a record holding the inert default spec leaves the
world untouched, whatever its latch says. -/
theorem dtor_inert (c : Bool) (w : World) : dtor ⟨c, defaultSpec⟩ w = w := by
  cases c with
  | true => simp [dtor]
  | false => simp [dtor, close_noop ⟨false, defaultSpec⟩ w (Or.inl rfl)]

/-- Entries whose `exists` check fails contribute nothing: traversal of
the pruned tree collects the same files. -/
theorem addFilesAux_prune (base : FsPath) :
    (es : FsEntries) → addFilesAux base (pruneEntries es) = addFilesAux base es
  | .nil => rfl
  | .file n g rb c rest => by
      cases g <;> simp [pruneEntries, addFilesAux, addFilesAux_prune base rest]
  | .dir n g cs rest => by
      cases g <;>
        simp [pruneEntries, addFilesAux, addFilesAux_prune base rest,
          addFilesAux_prune (childPath base n) cs]

/-- C1: for every recording, not-yet-finalized session, whenever close()
returns without throwing (normally, or after only logged per-file or
per-destination warnings), the temp directory and all of its contents no
longer exist — even when archive building or the destination write
failed partway, since those failures only log and the run still
returns. -/
theorem c1_temp_removed (r : MissionRecord) (w : World)
    (hRec : r.spec.is_recording = true) (hNc : r.is_closed = false)
    (hret : (close r w).exn = none) :
    (close r w).world.tempExists = false ∧
    (close r w).world.tempEntries = .nil := by
  cases hEx : w.tempExists with
  | false =>
      rw [close_missing r w hRec hNc hEx] at hret
      simp at hret
  | true =>
      rw [close_run r w hRec hNc hEx]
      exact ⟨rfl, rfl⟩

/-- Witness for C1: a concrete recording with one readable file, where
close() returns normally and the temp directory is gone. -/
theorem c1_temp_removed_witness :
    (close recT wOneGood).world.tempExists = false ∧
    (close recT wOneGood).world.tempEntries = .nil :=
  c1_temp_removed recT wOneGood rfl rfl rfl

/-- C2: close() is idempotent — a second call leaves the record and the
world exactly as the first call left them; and when recording is off or
the latch is already set, close() returns immediately with no side
effects, so a non-recording spec never creates the destination or
touches the temp directory. -/
theorem c2_idempotent (r : MissionRecord) (w : World) :
    ((close (close r w).record (close r w).world).record = (close r w).record ∧
     (close (close r w).record (close r w).world).world = (close r w).world) ∧
    (r.spec.is_recording = false ∨ r.is_closed = true → close r w = ⟨none, r, w⟩) :=
  ⟨close_stable r w, fun h => close_noop r w h⟩

/-- Witness for C2: a concrete non-recording record, for which close() is
the identity on the whole state. -/
theorem c2_idempotent_witness :
    close recInert wOneGood = ⟨none, recInert, wOneGood⟩ :=
  (c2_idempotent recInert wOneGood).2 (Or.inl rfl)

/-- C3 is refuted as stated (the fixed two-character trim in addFile is
the latent bug the spec itself flags): on temp directory ./t holding the
single readable file ./t/a.txt, close() writes a one-entry archive whose
entry is named t/a.txt, while the path relative to the temp directory is
a.txt — the two names differ. -/
theorem c3_entry_name_bug :
    (close recT wOneGood).world.dest = some [⟨"t/a.txt", "x"⟩] ∧
    entryName (childPath specT.temp_dir "a.txt") = "t/a.txt" ∧
    specRelativeName specT.temp_dir (childPath specT.temp_dir "a.txt") = "a.txt" ∧
    entryName (childPath specT.temp_dir "a.txt") ≠
      specRelativeName specT.temp_dir (childPath specT.temp_dir "a.txt") := by
  refine ⟨rfl, rfl, rfl, ?_⟩
  decide

/-- C4 is false on the code: with the enumerated file list non-empty but
every file failing to archive, close() still writes a zero-entry archive
— here the destination goes from absent to holding the empty archive. -/
theorem c4_counterexample :
    addFilesAux recT.spec.temp_dir wOneBad.tempEntries ≠ [] ∧
    (∀ f ∈ addFilesAux recT.spec.temp_dir wOneBad.tempEntries, f.readable = false) ∧
    wOneBad.dest = none ∧
    (close recT wOneBad).world.dest = some [] := by
  decide

/-- C4 amended: no archive is written only when the enumerated file list
is empty; when the list is non-empty but every individual file fails to
be added, close() still writes an archive with zero entries to the
destination whenever it can be opened. -/
theorem c4_amended_empty_archive (r : MissionRecord) (w : World)
    (hRec : r.spec.is_recording = true) (hNc : r.is_closed = false)
    (hEx : w.tempExists = true) :
    (addFilesAux r.spec.temp_dir w.tempEntries = [] →
      (close r w).world.dest = w.dest) ∧
    ((∀ f ∈ addFilesAux r.spec.temp_dir w.tempEntries, f.readable = false) →
      addFilesAux r.spec.temp_dir w.tempEntries ≠ [] →
      w.destOpenable = true →
      (close r w).world.dest = some []) := by
  rw [close_run r w hRec hNc hEx]
  constructor
  · intro h
    simp [archivePhase, h]
  · intro hall hne hdo
    have hfil : (addFilesAux r.spec.temp_dir w.tempEntries).filter
        (fun f => f.readable) = [] := by
      refine List.filter_eq_nil_iff.mpr ?_
      intro a ha
      simp [hall a ha]
    simp [archivePhase, List.length_pos.mpr hne, archiveFiles_eq, hfil,
      writeDest, hdo]

/-- Witness for the amended C4: the concrete all-failing world, where the
empty archive lands at the destination. -/
theorem c4_amended_witness :
    (close recT wOneBad).world.dest = some [] :=
  (c4_amended_empty_archive recT wOneBad rfl rfl rfl).2 (by decide) (by decide) rfl

/-- C5: with exactly one of the collected files failing to archive,
close() does not throw, logs a warning naming the offending path, and
the archive written to the destination holds exactly the other N−1
entries, in traversal order. -/
theorem c5_partial_failure (r : MissionRecord) (w : World) (f0 : CFile)
    (hRec : r.spec.is_recording = true) (hNc : r.is_closed = false)
    (hEx : w.tempExists = true) (hdo : w.destOpenable = true)
    (hone : (addFilesAux r.spec.temp_dir w.tempEntries).filter
      (fun f => !f.readable) = [f0]) :
    (close r w).exn = none ∧
    (close r w).world.dest =
      some (((addFilesAux r.spec.temp_dir w.tempEntries).filter
          (fun f => f.readable)).map (fun f => ⟨entryName f.path, f.contents⟩)) ∧
    ((addFilesAux r.spec.temp_dir w.tempEntries).filter
        (fun f => f.readable)).length + 1 =
      (addFilesAux r.spec.temp_dir w.tempEntries).length ∧
    warnOf f0 ∈ (close r w).world.log := by
  have hne : addFilesAux r.spec.temp_dir w.tempEntries ≠ [] := by
    intro h
    rw [h] at hone
    simp at hone
  rw [close_run r w hRec hNc hEx]
  refine ⟨rfl, ?_, ?_, ?_⟩
  · simp [archivePhase, List.length_pos.mpr hne, archiveFiles_eq, writeDest, hdo]
  · have h3 : (addFilesAux r.spec.temp_dir w.tempEntries).length =
        ((addFilesAux r.spec.temp_dir w.tempEntries).filter
          (fun f => f.readable)).length +
        ((addFilesAux r.spec.temp_dir w.tempEntries).filter
          (fun f => !f.readable)).length :=
      List.length_eq_length_filter_add (fun f => f.readable)
    rw [hone] at h3
    simp at h3
    omega
  · simp [archivePhase, List.length_pos.mpr hne, archiveFiles_eq, writeDest,
      hdo, hone]

/-- Witness for C5: two files of which exactly b.txt is unreadable; the
archive holds the one other entry and the warning names b.txt. -/
theorem c5_partial_failure_witness :
    (close recT wMixed).exn = none ∧
    (close recT wMixed).world.dest =
      some (((addFilesAux recT.spec.temp_dir wMixed.tempEntries).filter
          (fun f => f.readable)).map (fun f => ⟨entryName f.path, f.contents⟩)) ∧
    ((addFilesAux recT.spec.temp_dir wMixed.tempEntries).filter
        (fun f => f.readable)).length + 1 =
      (addFilesAux recT.spec.temp_dir wMixed.tempEntries).length ∧
    warnOf ⟨childPath specT.temp_dir "b.txt", false, "y"⟩ ∈
      (close recT wMixed).world.log :=
  c5_partial_failure recT wMixed ⟨childPath specT.temp_dir "b.txt", false, "y"⟩
    rfl rfl rfl rfl rfl

/-- C6: teardown of a not-yet-closed record runs close(); an exception
from that close is caught and becomes a log line and nothing else (the
destructor is a total function of the state, so nothing escapes); a
record already closed gets no finalize work at all. -/
theorem c6_teardown_swallows (r : MissionRecord) (w : World) :
    (r.is_closed = true → dtor r w = w) ∧
    (r.is_closed = false →
      ((close r w).exn = none → dtor r w = (close r w).world) ∧
      (∀ e, (close r w).exn = some e →
        dtor r w = { (close r w).world with
          log := (close r w).world.log ++
            ["Exception in closing of MissionRecord: " ++ e] })) := by
  refine ⟨fun h => by simp [dtor, h], fun h => ⟨fun he => ?_, fun e he => ?_⟩⟩
  · simp [dtor, h, he]
  · simp [dtor, h, he]

/-- Witness for C6: teardown over a missing temp directory, where the
implicit close throws; the destructor converts the error into a log
line. -/
theorem c6_teardown_witness :
    dtor recT wMissing =
      { (close recT wMissing).world with
        log := (close recT wMissing).world.log ++
          ["Exception in closing of MissionRecord: " ++
            ("Attempt to write to non-existent directory: " ++
              pathString recT.spec.temp_dir)] } :=
  ((c6_teardown_swallows recT wMissing).2 rfl).2
    ("Attempt to write to non-existent directory: " ++ pathString recT.spec.temp_dir)
    rfl

/-- C7: moving a session (by construction or assignment) transfers the
spec and the latch to the destination — whose close then behaves exactly
as the source's would have, removing the temp directory once — and
resets the source to the inert default spec, so closing or tearing down
the moved-from source changes nothing; self-move-assignment is a
no-op. -/
theorem c7_move_transfer (a b : MissionRecord) (w : World) :
    (moveCtor a).1 = ⟨a.is_closed, a.spec⟩ ∧
    close (moveCtor a).2 w = ⟨none, (moveCtor a).2, w⟩ ∧
    dtor (moveCtor a).2 w = w ∧
    close (moveCtor a).1 w = close a w ∧
    (moveAssign b a).1 = ⟨a.is_closed, a.spec⟩ ∧
    close (moveAssign b a).2 w = ⟨none, (moveAssign b a).2, w⟩ ∧
    dtor (moveAssign b a).2 w = w ∧
    moveAssignSelf a = a :=
  ⟨rfl, close_noop _ _ (Or.inl rfl), dtor_inert a.is_closed w, rfl,
   rfl, close_noop _ _ (Or.inl rfl), dtor_inert a.is_closed w, rfl⟩

/-- C8: when the destination cannot be opened for writing (and there are
files to archive), close() logs a warning, skips the write, raises
nothing, still removes the temp directory and latches is_closed. -/
theorem c8_dest_unwritable (r : MissionRecord) (w : World)
    (hRec : r.spec.is_recording = true) (hNc : r.is_closed = false)
    (hEx : w.tempExists = true) (hdo : w.destOpenable = false)
    (hne : addFilesAux r.spec.temp_dir w.tempEntries ≠ []) :
    (close r w).exn = none ∧
    (close r w).world.dest = w.dest ∧
    ("[warning] Unable to write recording to output file " ++
      pathString r.spec.destination) ∈ (close r w).world.log ∧
    (close r w).world.tempExists = false ∧
    (close r w).record.is_closed = true := by
  rw [close_run r w hRec hNc hEx]
  refine ⟨rfl, ?_, ?_, rfl, rfl⟩
  · simp [archivePhase, List.length_pos.mpr hne, archiveFiles_eq, writeDest, hdo]
  · simp [archivePhase, List.length_pos.mpr hne, archiveFiles_eq, writeDest, hdo]

/-- Witness for C8: one readable file, destination unopenable — the
warning is logged, nothing is written, cleanup still happens. -/
theorem c8_dest_unwritable_witness :
    (close recT wNoDest).exn = none ∧
    (close recT wNoDest).world.dest = wNoDest.dest ∧
    ("[warning] Unable to write recording to output file " ++
      pathString recT.spec.destination) ∈ (close recT wNoDest).world.log ∧
    (close recT wNoDest).world.tempExists = false ∧
    (close recT wNoDest).record.is_closed = true :=
  c8_dest_unwritable recT wNoDest rfl rfl rfl rfl (by decide)

/-- C9: a recording, unfinalized session whose temp directory is missing
makes close() throw the missing-source-directory error, which propagates
to the caller with the state untouched; file enumeration fails exactly
when its root is missing, and entries vanishing mid-traversal are
skipped — traversal collects the same files as on the pruned tree. -/
theorem c9_missing_source (r : MissionRecord) (w : World) (base : FsPath)
    (es : FsEntries)
    (hRec : r.spec.is_recording = true) (hNc : r.is_closed = false) :
    (w.tempExists = false →
      close r w = ⟨some ("Attempt to write to non-existent directory: " ++
        pathString r.spec.temp_dir), r, w⟩) ∧
    addFiles false base es =
      .error ("Attempt to write to non-existent directory: " ++ pathString base) ∧
    addFiles true base es = .ok (addFilesAux base es) ∧
    addFilesAux base (pruneEntries es) = addFilesAux base es :=
  ⟨fun hEx => close_missing r w hRec hNc hEx, rfl, rfl, addFilesAux_prune base es⟩

/-- Witness for C9: the concrete missing-directory world, and a listing
with one vanished entry whose traversal equals that of the pruned
listing. -/
theorem c9_missing_source_witness :
    close recT wMissing = ⟨some ("Attempt to write to non-existent directory: " ++
      pathString recT.spec.temp_dir), recT, wMissing⟩ ∧
    addFilesAux specT.temp_dir (pruneEntries esVanish) =
      addFilesAux specT.temp_dir esVanish :=
  ⟨(c9_missing_source recT wMissing specT.temp_dir esVanish rfl rfl).1 rfl,
   (c9_missing_source recT wMissing specT.temp_dir esVanish rfl rfl).2.2.2⟩

/-- C10: when close() exits with a throw, the record (latch included) and
the world are exactly as before the call — no removal was attempted — so
a later explicit close() retries the whole operation from the same
state. -/
theorem c10_error_atomic (r : MissionRecord) (w : World) (e : String)
    (he : (close r w).exn = some e) :
    (close r w).record = r ∧
    (close r w).world = w ∧
    r.is_closed = false ∧
    (close r w).record.is_closed = false ∧
    close (close r w).record (close r w).world = close r w := by
  by_cases hRec : r.spec.is_recording = true
  · by_cases hNc : r.is_closed = true
    · rw [close_noop r w (Or.inr hNc)] at he
      simp at he
    · have hNc' : r.is_closed = false := by simpa using hNc
      cases hEx : w.tempExists with
      | true =>
          rw [close_run r w hRec hNc' hEx] at he
          simp at he
      | false =>
          rw [close_missing r w hRec hNc' hEx]
          exact ⟨rfl, rfl, hNc', hNc', close_missing r w hRec hNc' hEx⟩
  · have hRec' : r.spec.is_recording = false := by simpa using hRec
    rw [close_noop r w (Or.inl hRec')] at he
    simp at he

/-- Witness for C10: the missing-directory throw leaves the concrete
state untouched and unlatched. -/
theorem c10_error_atomic_witness :
    (close recT wMissing).record = recT ∧
    (close recT wMissing).world = wMissing ∧
    recT.is_closed = false ∧
    (close recT wMissing).record.is_closed = false ∧
    close (close recT wMissing).record (close recT wMissing).world =
      close recT wMissing :=
  c10_error_atomic recT wMissing
    ("Attempt to write to non-existent directory: " ++ pathString recT.spec.temp_dir)
    rfl

end Malmo
